import Mathlib

/-!
# SenseWatch4 — verification of the sensor-data server against its specification

Shallow embedding of `src/server.py`, a FastAPI + MQTT temperature-telemetry
server backed by a MySQL table `sensor_data`.

Modelling decisions:
* `datetime` values are modelled as `Int` (a point in time with a total order,
  e.g. epoch seconds); `float` temperature values are modelled as `Rat`
  (the claims never do float arithmetic, only storage, comparison and echo).
* The MySQL table is modelled as `Sink`: a list of rows plus the
  AUTO_INCREMENT counter that yields `cursor.lastrowid`.
* `get_db_connection` returning `None` and a `mysql.connector.Error` raised
  during an operation are modelled by `DbMode`, an environment parameter of
  each storage call (the Python code branches on exactly these two failures).
  An `Error` raised mid-operation happens before the `connection.commit()`
  call takes durable effect; the connection is closed without a commit, so
  the transaction rolls back and the error path leaves the table unchanged
  (failures of `connection.close()` after a successful commit are not
  modelled).
* `HTTPException` is modelled by `HError.http status detail`; the 422
  response FastAPI produces from a pydantic `ValidationError` is
  `HError.validation`.
* Connection lifecycle: each storage operation also returns the list of
  connection events (`acquire`/`release`) its execution path performs,
  mirroring the `get_db_connection()` / `connection.close()` calls of the
  corresponding Python code path.
-/

/-- The pydantic request model `SensorData` (server.py lines 40–54), after
validation: four typed fields. Note pydantic's `str` type places no
constraint beyond being a string — `Field(...)` only makes the field
required. -/
structure SensorData where
  sensor_id : String
  device_id : String
  timestamp : Int
  temp_value : Rat
deriving DecidableEq, Repr

/-- A row of the `sensor_data` table: the pydantic response model
`SensorReading` (server.py lines 57–62) — a reading plus the sink-assigned
record id. -/
structure StoredReading where
  id : Nat
  sensor_id : String
  device_id : String
  timestamp : Int
  temp_value : Rat
deriving DecidableEq, Repr

/-- An inbound JSON object before pydantic validation. `none` models a field
that is missing or fails to parse to the target type (e.g. a `timestamp`
string `datetime.fromisoformat` rejects). An empty string is `some ""` — it
is present and is a `str`. -/
structure RawPayload where
  sensor_id : Option String
  device_id : Option String
  timestamp : Option Int
  temp_value : Option Rat
deriving DecidableEq, Repr

/-- A pydantic `ValidationError`, naming the offending field. -/
inductive VError
  | fieldError (field : String)
deriving DecidableEq, Repr

/-- An error response of the HTTP layer: a FastAPI 422 built from a pydantic
`ValidationError`, or an `HTTPException` with a status code and detail. -/
inductive HError
  | validation (e : VError)
  | http (status : Nat) (detail : String)
deriving DecidableEq, Repr

/-- Validation of a raw payload against the `SensorData` model
(server.py lines 40–44): every field is required (`Field(...)`) and must
parse to its annotated type. There is no emptiness or range check —
`sensor_id: str` accepts any string, including `""`. -/
def validateSensorData (raw : RawPayload) : Except VError SensorData :=
  match raw.sensor_id with
  | none => .error (.fieldError "sensor_id")
  | some sid =>
    match raw.device_id with
    | none => .error (.fieldError "device_id")
    | some did =>
      match raw.timestamp with
      | none => .error (.fieldError "timestamp")
      | some ts =>
        match raw.temp_value with
        | none => .error (.fieldError "temp_value")
        | some tv => .ok ⟨sid, did, ts, tv⟩

/-- The `sensor_data` table: its rows and the AUTO_INCREMENT counter that
produces `cursor.lastrowid` for the next insert. -/
structure Sink where
  nextId : Nat
  rows : List StoredReading
deriving DecidableEq, Repr

/-- Connection-lifecycle events: `mysql.connector.connect` succeeding
(`acquire`) and `connection.close()` (`release`). -/
inductive Ev
  | acquire
  | release
deriving DecidableEq, Repr

/-- The failure mode of one storage call:
* `connFail` — `mysql.connector.connect` raises, `get_db_connection`
  returns `None` (server.py lines 64–71);
* `opError e` — a `mysql.connector.Error` is raised while using the
  connection, before the commit takes durable effect;
* `ok` — the operation completes. -/
inductive DbMode
  | connFail
  | opError (msg : String)
  | ok
deriving DecidableEq, Repr

/-- The outcome of one storage operation: its returned value or raised
`HTTPException`, the table state after the call, and the connection events
of the executed path. -/
structure OpResult (α : Type) where
  result : Except HError α
  sink : Sink
  events : List Ev
deriving Repr

/-- The row an insert of `data` creates when `lastrowid` is `rid`. -/
def mkRow (rid : Nat) (data : SensorData) : StoredReading :=
  ⟨rid, data.sensor_id, data.device_id, data.timestamp, data.temp_value⟩

/-- `insert_sensor_data` (server.py lines 73–99): acquire a connection
(raise 500 if `None`), execute a single-row INSERT, commit, read
`lastrowid`, close, return the id. On a `mysql.connector.Error` the
connection is closed (rolling back the uncommitted insert) and a 500 with
the error detail is raised. -/
def insert_sensor_data (mode : DbMode) (data : SensorData) (sink : Sink) :
    OpResult Nat :=
  match mode with
  | .connFail => ⟨.error (.http 500 "Database connection failed"), sink, []⟩
  | .opError e =>
      ⟨.error (.http 500 ("Database error: " ++ e)), sink, [.acquire, .release]⟩
  | .ok =>
      ⟨.ok sink.nextId,
       ⟨sink.nextId + 1, sink.rows ++ [mkRow sink.nextId data]⟩,
       [.acquire, .release]⟩

/-- The ORDER BY key of the latest-readings query
(`ORDER BY timestamp DESC, id DESC`): row `a` sorts no later than row `b`. -/
def rowBefore (a b : StoredReading) : Prop :=
  b.timestamp < a.timestamp ∨ (b.timestamp = a.timestamp ∧ b.id ≤ a.id)

instance : DecidableRel rowBefore := fun a b => by
  unfold rowBefore; exact inferInstance

instance : IsTotal StoredReading rowBefore :=
  ⟨fun a b => by unfold rowBefore; omega⟩

instance : IsTrans StoredReading rowBefore :=
  ⟨fun a b c hab hbc => by unfold rowBefore at *; omega⟩

/-- Semantics of the SELECT of `get_latest_readings` (server.py lines
109–115): rows WHERE `sensor_id` matches, ORDER BY `timestamp` DESC then
`id` DESC, LIMIT `limit`. -/
def sqlLatest (rows : List StoredReading) (sensor_id : String) (limit : Nat) :
    List StoredReading :=
  (List.insertionSort rowBefore
    (rows.filter (fun r => r.sensor_id == sensor_id))).take limit

/-- `get_latest_readings` (server.py lines 101–128): acquire a connection
(500 if `None`), run the SELECT, close, return the rows; on a
`mysql.connector.Error` close and raise a 500. -/
def get_latest_readings (mode : DbMode) (sensor_id : String) (limit : Nat)
    (sink : Sink) : OpResult (List StoredReading) :=
  match mode with
  | .connFail => ⟨.error (.http 500 "Database connection failed"), sink, []⟩
  | .opError e =>
      ⟨.error (.http 500 ("Database error: " ++ e)), sink, [.acquire, .release]⟩
  | .ok => ⟨.ok (sqlLatest sink.rows sensor_id limit), sink, [.acquire, .release]⟩

/-- Semantics of the SELECT of `get_all_sensors` (server.py lines 138–142):
`SELECT DISTINCT sensor_id FROM sensor_data ORDER BY sensor_id`. -/
def sqlDistinctSensors (rows : List StoredReading) : List String :=
  List.insertionSort (· ≤ ·) ((rows.map (fun r => r.sensor_id)).dedup)

/-- `get_all_sensors` (server.py lines 130–155): acquire a connection
(500 if `None`), run the DISTINCT query, close, return the id list; on a
`mysql.connector.Error` close and raise a 500. -/
def get_all_sensors (mode : DbMode) (sink : Sink) : OpResult (List String) :=
  match mode with
  | .connFail => ⟨.error (.http 500 "Database connection failed"), sink, []⟩
  | .opError e =>
      ⟨.error (.http 500 ("Database error: " ++ e)), sink, [.acquire, .release]⟩
  | .ok => ⟨.ok (sqlDistinctSensors sink.rows), sink, [.acquire, .release]⟩

/-- The body of the 201 response of `POST /data` (server.py lines 243–253):
status and message strings, the assigned record id, and an echo of the
validated reading. -/
structure SubmitResponse where
  status : String
  message : String
  record_id : Nat
  sensor_id : String
  device_id : String
  timestamp : Int
  temp_value : Rat
deriving DecidableEq, Repr

/-- `POST /data` = `submit_sensor_data` (server.py lines 224–253), including
the FastAPI layer: the request body is validated against `SensorData`
before the handler runs (422 on a `ValidationError`, with no handler code —
hence no storage call — executed); the handler then calls
`insert_sensor_data` and echoes the stored reading with its record id. -/
def submit_sensor_data (mode : DbMode) (raw : RawPayload) (sink : Sink) :
    OpResult SubmitResponse :=
  match validateSensorData raw with
  | .error e => ⟨.error (.validation e), sink, []⟩
  | .ok data =>
    let ins := insert_sensor_data mode data sink
    match ins.result with
    | .error e => ⟨.error e, ins.sink, ins.events⟩
    | .ok rid =>
        ⟨.ok ⟨"success", "Sensor data received and stored in database", rid,
              data.sensor_id, data.device_id, data.timestamp, data.temp_value⟩,
         ins.sink, ins.events⟩

/-- `GET /sensors/{sensor_id}/readings` = `get_sensor_readings`
(server.py lines 256–274): call `get_latest_readings`; an empty result is
reported as a 404. -/
def get_sensor_readings (mode : DbMode) (sensor_id : String) (limit : Nat)
    (sink : Sink) : Except HError (List StoredReading) :=
  match (get_latest_readings mode sensor_id limit sink).result with
  | .error e => .error e
  | .ok readings =>
      if readings.isEmpty then
        .error (.http 404 ("No readings found for sensor: " ++ sensor_id))
      else .ok readings

/-- `GET /sensors` = `list_sensors` (server.py lines 277–287): call
`get_all_sensors`; `if not sensors: return []`, else return the list.
Note the `HTTPException` raised by `get_all_sensors` on a storage failure
propagates out of this endpoint. -/
def list_sensors (mode : DbMode) (sink : Sink) : Except HError (List String) :=
  match (get_all_sensors mode sink).result with
  | .error e => .error e
  | .ok sensors => if sensors.isEmpty then .ok [] else .ok sensors

/-- The storage reachability the health probe observes:
* `reachable` — `get_db_connection()` returns a connection (closed again);
* `unreachable` — it returns `None` (a `mysql.connector.Error` was caught
  inside `get_db_connection`);
* `erroring msg` — an exception outside `mysql.connector.Error` escapes the
  acquire/close attempt and is caught by the probe's own handler. -/
inductive StorageState
  | reachable
  | unreachable
  | erroring (msg : String)
deriving DecidableEq, Repr

/-- The body of the `GET /health` response (server.py lines 317–322). -/
structure HealthResponse where
  status : String
  database : String
  mqtt_broker : String
  mqtt_port : Nat
deriving DecidableEq, Repr

/-- `GET /health` = `health_check` (server.py lines 303–322): attempt a
connection acquire/close, report `connected` / `disconnected` /
`error: <msg>` accordingly — every branch builds a 200 response; nothing
is raised. The configured broker address and port are echoed verbatim. -/
def health_check (st : StorageState) (broker : String) (port : Nat) :
    HealthResponse :=
  { status := "healthy"
    database :=
      match st with
      | .reachable => "connected"
      | .unreachable => "disconnected"
      | .erroring m => "error: " ++ m
    mqtt_broker := broker
    mqtt_port := port }

/-- One inbound MQTT message, as the listener sees it after
`msg.payload.decode()`: either `json.loads` raises `JSONDecodeError`, or it
yields an object whose fields are a `RawPayload`. -/
inductive MqttPayload
  | malformedJson
  | json (raw : RawPayload)
deriving DecidableEq, Repr

/-- `on_message` (server.py lines 168–197): parse JSON, parse the embedded
timestamp, validate as `SensorData`, insert. Every failure — decode error,
missing/bad timestamp (`KeyError`/`ValueError` from `fromisoformat`),
pydantic `ValidationError`, or the `HTTPException` from
`insert_sensor_data` — is caught by the handler's own
`except json.JSONDecodeError` / `except Exception` clauses and only logged.
The handler therefore always returns normally: its type is total, with the
log lines it prints as the second component. -/
def on_message (mode : DbMode) (msg : MqttPayload) (sink : Sink) :
    Sink × List String :=
  match msg with
  | .malformedJson => (sink, ["Error decoding JSON"])
  | .json raw =>
    match raw.timestamp with
    | none => (sink, ["Error processing message"])
    | some _ =>
      match validateSensorData raw with
      | .error _ => (sink, ["Error processing message"])
      | .ok data =>
        let ins := insert_sensor_data mode data sink
        match ins.result with
        | .error _ => (ins.sink, ["Error processing message"])
        | .ok _ => (ins.sink, ["SENSOR DATA RECEIVED VIA MQTT"])

/-- The listener loop: the broker client delivers messages one at a time in
order, invoking `on_message` for each; the sink state threads through. -/
def runListener : List (DbMode × MqttPayload) → Sink → Sink
  | [], sink => sink
  | (mode, msg) :: rest, sink => runListener rest (on_message mode msg sink).1

/-- A message/mode pair on which ingestion fails: the payload is malformed
JSON, its timestamp is missing or unparseable, it fails `SensorData`
validation, or the storage call fails. -/
def messageFails (mode : DbMode) (msg : MqttPayload) : Bool :=
  match msg with
  | .malformedJson => true
  | .json raw =>
      raw.timestamp.isNone ||
      (match validateSensorData raw with
       | .error _ => true
       | .ok _ => false) ||
      mode != .ok

/-! ## Shared example data -/

/-- An empty sink whose next AUTO_INCREMENT id is 1. -/
def sink0 : Sink := ⟨1, []⟩

/-- The three readings of the spec's walk-through scenario, inserted in
order: `(S1, D1, t=100, 20.5)`, `(S1, D1, t=102, 21.0)`,
`(S2, D2, t=101, 19.0)`. -/
def rowsEx : List StoredReading :=
  [⟨1, "S1", "D1", 100, 41/2⟩, ⟨2, "S1", "D1", 102, 21⟩, ⟨3, "S2", "D2", 101, 19⟩]

/-- The sink after the three example inserts. -/
def sinkEx : Sink := ⟨4, rowsEx⟩

/-- A well-formed raw payload. -/
def rawGood : RawPayload := ⟨some "SENSOR001", some "DEVICE123", some 100, some (47/2)⟩

/-- The validated form of `rawGood`. -/
def dataGood : SensorData := ⟨"SENSOR001", "DEVICE123", 100, 47/2⟩

/-! ## Helper lemmas on the latest-readings query -/

theorem sqlLatest_length_le (rows : List StoredReading) (s : String) (n : Nat) :
    (sqlLatest rows s n).length ≤ n :=
  List.length_take_le _ _

theorem sqlLatest_mem_sensor {rows : List StoredReading} {s : String} {n : Nat}
    {r : StoredReading} (hr : r ∈ sqlLatest rows s n) : r.sensor_id = s := by
  have h1 : r ∈ List.insertionSort rowBefore
      (rows.filter (fun r => r.sensor_id == s)) := List.take_subset _ _ hr
  rw [List.mem_insertionSort] at h1
  exact eq_of_beq (List.mem_filter.mp h1).2

theorem sqlLatest_pairwise (rows : List StoredReading) (s : String) (n : Nat) :
    (sqlLatest rows s n).Pairwise rowBefore :=
  List.Pairwise.sublist (List.take_sublist _ _)
    (List.sorted_insertionSort rowBefore _)

theorem sqlLatest_ids_nodup {rows : List StoredReading} (s : String) (n : Nat)
    (h : (rows.map StoredReading.id).Nodup) :
    ((sqlLatest rows s n).map StoredReading.id).Nodup := by
  have hfilter : ((rows.filter (fun r => r.sensor_id == s)).map
      StoredReading.id).Nodup :=
    List.Nodup.sublist ((List.filter_sublist rows).map StoredReading.id) h
  have hsort : ((List.insertionSort rowBefore
      (rows.filter (fun r => r.sensor_id == s))).map StoredReading.id).Nodup :=
    ((List.perm_insertionSort rowBefore _).map StoredReading.id).nodup_iff.mpr
      hfilter
  unfold sqlLatest
  rw [List.map_take]
  exact List.Nodup.sublist (List.take_sublist _ _) hsort

/-- C2. The latest-readings query returns rows sorted by `timestamp`
descending, with `id` descending as the tie-break between rows sharing a
timestamp — for any table contents whose row ids are distinct (as
AUTO_INCREMENT guarantees). This is the `ORDER BY timestamp DESC, id DESC`
of `get_latest_readings`. -/
theorem latest_readings_sorted_desc (rows : List StoredReading) (s : String)
    (n : Nat) (h : (rows.map StoredReading.id).Nodup) :
    (sqlLatest rows s n).Pairwise
      (fun a b => b.timestamp < a.timestamp ∨
        (b.timestamp = a.timestamp ∧ b.id < a.id)) := by
  have hpw := sqlLatest_pairwise rows s n
  have hne : (sqlLatest rows s n).Pairwise (fun a b => a.id ≠ b.id) :=
    List.pairwise_map.mp (sqlLatest_ids_nodup s n h)
  refine (hpw.and hne).imp ?_
  intro a b hab
  obtain ⟨hrb, hne⟩ := hab
  unfold rowBefore at hrb
  omega

/-- Witness for C2: on the spec's three-row example the rows for `S1` come
back `[id 2 @102, id 1 @100]`, strictly descending. -/
theorem latest_readings_sorted_desc_witness :
    (sqlLatest rowsEx "S1" 10).Pairwise
      (fun a b => b.timestamp < a.timestamp ∨
        (b.timestamp = a.timestamp ∧ b.id < a.id)) :=
  latest_readings_sorted_desc rowsEx "S1" 10 (by decide)

/-- C6. Whenever the latest-readings endpoint succeeds, it returns at most
`limit` rows (the SQL `LIMIT`) and every returned row belongs to the
requested sensor (the SQL `WHERE sensor_id = %s`). -/
theorem latest_readings_limit_and_sensor (mode : DbMode) (s : String)
    (limit : Nat) (sink : Sink) (l : List StoredReading)
    (h : get_sensor_readings mode s limit sink = .ok l) :
    l.length ≤ limit ∧ ∀ r ∈ l, r.sensor_id = s := by
  cases mode with
  | connFail => simp [get_sensor_readings, get_latest_readings] at h
  | opError e => simp [get_sensor_readings, get_latest_readings] at h
  | ok =>
      simp only [get_sensor_readings, get_latest_readings] at h
      by_cases hemp : (sqlLatest sink.rows s limit).isEmpty
      · simp [hemp] at h
      · simp [hemp] at h
        subst h
        exact ⟨sqlLatest_length_le _ _ _, fun r hr => sqlLatest_mem_sensor hr⟩

/-- Witness for C6: on the example sink, `limit = 1` for sensor `S1`
returns one row, which is for `S1`. -/
theorem latest_readings_limit_and_sensor_witness :
    (1 : Nat) ≤ 1 ∧ ∀ r ∈ [(⟨2, "S1", "D1", 102, 21⟩ : StoredReading)],
      r.sensor_id = "S1" := by
  have h := latest_readings_limit_and_sensor .ok "S1" 1 sinkEx
    [⟨2, "S1", "D1", 102, 21⟩] rfl
  exact ⟨h.1, h.2⟩

/-- C7. `SELECT DISTINCT sensor_id ... ORDER BY sensor_id` returns a
lexicographically sorted, duplicate-free list of exactly the sensor ids
having at least one stored row; the read mutates nothing, so a second call
on the resulting (unchanged) sink returns the same sequence. -/
theorem all_sensors_sorted_nodup_complete (sink : Sink) :
    (sqlDistinctSensors sink.rows).Pairwise (· < ·)
    ∧ (sqlDistinctSensors sink.rows).Nodup
    ∧ (∀ s : String, s ∈ sqlDistinctSensors sink.rows ↔
        ∃ r ∈ sink.rows, r.sensor_id = s)
    ∧ (get_all_sensors .ok sink).result = .ok (sqlDistinctSensors sink.rows)
    ∧ (get_all_sensors .ok sink).sink = sink
    ∧ (get_all_sensors .ok ((get_all_sensors .ok sink).sink)).result
        = (get_all_sensors .ok sink).result := by
  have hnd : (sqlDistinctSensors sink.rows).Nodup := by
    unfold sqlDistinctSensors
    exact (List.perm_insertionSort _ _).nodup_iff.mpr (List.nodup_dedup _)
  have hle : (sqlDistinctSensors sink.rows).Pairwise (· ≤ ·) :=
    List.sorted_insertionSort _ _
  refine ⟨(hle.and hnd).imp ?_, hnd, ?_, rfl, rfl, rfl⟩
  · intro a b hab
    exact lt_of_le_of_ne hab.1 hab.2
  · intro s
    simp [sqlDistinctSensors, List.mem_insertionSort, List.mem_dedup,
      List.mem_map]

/-- Counterexample to C5 as stated: when the storage connection cannot be
acquired, `GET /sensors` does not respond successfully — the
`HTTPException(500)` raised by `get_all_sensors` propagates out of the
endpoint. -/
theorem list_sensors_fails_on_conn_failure :
    list_sensors .connFail sink0
      = .error (.http 500 "Database connection failed") := rfl

/-- C5 (amended). When a storage connection can be acquired and the query
succeeds, `GET /sensors` responds successfully for every sink state, and an
empty sink yields the empty list rather than an error; on
storage-connection failure the endpoint instead fails with a 500. -/
theorem list_sensors_ok_when_reachable (sink : Sink) :
    list_sensors .ok sink = .ok (sqlDistinctSensors sink.rows)
    ∧ list_sensors .ok ⟨sink.nextId, []⟩ = .ok [] := by
  constructor
  · unfold list_sensors get_all_sensors
    by_cases h : (sqlDistinctSensors sink.rows).isEmpty
    · simp only [h]
      simp [List.isEmpty_iff.mp h]
    · simp [h]
  · rfl

/-- C9. The health probe always responds: every storage state yields a 200
response whose `database` field is `connected`, `disconnected`, or
`error: <msg>` according to the outcome of the attempted connection
acquire/release, and whose broker address and port echo the configuration. -/
theorem health_check_always_responds (st : StorageState) (broker : String)
    (port : Nat) (m : String) :
    (health_check st broker port).status = "healthy"
    ∧ (health_check st broker port).mqtt_broker = broker
    ∧ (health_check st broker port).mqtt_port = port
    ∧ ((health_check st broker port).database = "connected"
       ∨ (health_check st broker port).database = "disconnected"
       ∨ ∃ e, (health_check st broker port).database = "error: " ++ e)
    ∧ (st = .reachable → (health_check st broker port).database = "connected")
    ∧ (st = .unreachable →
        (health_check st broker port).database = "disconnected")
    ∧ (st = .erroring m →
        (health_check st broker port).database = "error: " ++ m) := by
  cases st <;> simp [health_check]
  intro h
  rw [h]

/-- Witness for C9: a storage layer erroring with message `boom` still gets
a response, with the degraded state reported in the `database` field. -/
theorem health_check_always_responds_witness :
    (health_check (.erroring "boom") "localhost" 1883).database
      = "error: " ++ "boom" :=
  (health_check_always_responds (.erroring "boom") "localhost" 1883
    "boom").2.2.2.2.2.2 rfl

/-- A submission whose `sensor_id` is the empty string — present and a
valid `str` for pydantic. -/
def rawEmptyId : RawPayload := ⟨some "", some "DEVICE123", some 100, some (47/2)⟩

/-- A submission with no `sensor_id` field at all. -/
def rawNoId : RawPayload := ⟨none, some "DEVICE123", some 100, some (47/2)⟩

/-- Counterexample to C1 as stated: `sensor_id: str = Field(...)` only makes
the field required — the empty string passes pydantic validation, so a
submission with `sensor_id = ""` is accepted with a 201 and a stored
reading IS created. -/
theorem empty_sensor_id_accepted :
    validateSensorData rawEmptyId = .ok ⟨"", "DEVICE123", 100, 47/2⟩
    ∧ (submit_sensor_data .ok rawEmptyId sink0).result =
        .ok ⟨"success", "Sensor data received and stored in database", 1,
             "", "DEVICE123", 100, 47/2⟩
    ∧ (submit_sensor_data .ok rawEmptyId sink0).sink.rows =
        [⟨1, "", "DEVICE123", 100, 47/2⟩] :=
  ⟨rfl, rfl, rfl⟩

/-- C1 (amended). A submission whose `sensor_id` field is missing (or not a
string) yields a `ValidationError` naming `sensor_id`, and no stored
reading is created — the request is rejected by FastAPI before the handler
or any storage call runs. An empty-string `sensor_id`, however, passes
validation and is stored. -/
theorem missing_sensor_id_rejected (mode : DbMode) (raw : RawPayload)
    (sink : Sink) (h : raw.sensor_id = none) :
    (submit_sensor_data mode raw sink).result
      = .error (.validation (.fieldError "sensor_id"))
    ∧ (submit_sensor_data mode raw sink).sink = sink
    ∧ (submit_sensor_data mode raw sink).events = [] := by
  simp [submit_sensor_data, validateSensorData, h]

/-- Witness for C1 (amended): a payload with no `sensor_id` is rejected
with the field named, and the sink is untouched. -/
theorem missing_sensor_id_rejected_witness :
    (submit_sensor_data .ok rawNoId sink0).result
      = .error (.validation (.fieldError "sensor_id"))
    ∧ (submit_sensor_data .ok rawNoId sink0).sink = sink0
    ∧ (submit_sensor_data .ok rawNoId sink0).events = [] :=
  missing_sensor_id_rejected .ok rawNoId sink0 rfl

/-- C4. `POST /data` is atomic: every call either (a) fails validation —
rejected with a 422 naming the field, sink untouched, and no connection
even acquired (no write attempted); (b) passes validation but the storage
call fails — rejected with a 500, sink untouched (the uncommitted insert
rolls back when the connection closes); or (c) succeeds — exactly one row
is appended, and the response carries its assigned id `sink.nextId`. -/
theorem submit_accepted_or_no_effect (mode : DbMode) (raw : RawPayload)
    (sink : Sink) :
    (∃ ve, validateSensorData raw = .error ve
       ∧ (submit_sensor_data mode raw sink).result = .error (.validation ve)
       ∧ (submit_sensor_data mode raw sink).sink = sink
       ∧ (submit_sensor_data mode raw sink).events = [])
    ∨ (∃ data detail, validateSensorData raw = .ok data
       ∧ (submit_sensor_data mode raw sink).result = .error (.http 500 detail)
       ∧ (submit_sensor_data mode raw sink).sink = sink)
    ∨ (∃ data, validateSensorData raw = .ok data
       ∧ (submit_sensor_data mode raw sink).result =
           .ok ⟨"success", "Sensor data received and stored in database",
                sink.nextId, data.sensor_id, data.device_id, data.timestamp,
                data.temp_value⟩
       ∧ (submit_sensor_data mode raw sink).sink =
           ⟨sink.nextId + 1, sink.rows ++ [mkRow sink.nextId data]⟩) := by
  rcases hv : validateSensorData raw with ve | data
  · exact .inl ⟨ve, rfl, by simp [submit_sensor_data, hv],
      by simp [submit_sensor_data, hv], by simp [submit_sensor_data, hv]⟩
  · cases mode with
    | connFail =>
        exact .inr (.inl ⟨data, "Database connection failed", rfl,
          by simp [submit_sensor_data, hv, insert_sensor_data],
          by simp [submit_sensor_data, hv, insert_sensor_data]⟩)
    | opError e =>
        exact .inr (.inl ⟨data, "Database error: " ++ e, rfl,
          by simp [submit_sensor_data, hv, insert_sensor_data],
          by simp [submit_sensor_data, hv, insert_sensor_data]⟩)
    | ok =>
        exact .inr (.inr ⟨data, rfl,
          by simp [submit_sensor_data, hv, insert_sensor_data],
          by simp [submit_sensor_data, hv, insert_sensor_data]⟩)

/-- C8. Every storage operation balances connection acquisition and
release on every execution path: when acquisition fails nothing was
acquired, and on both the success path and the `mysql.connector.Error`
path the acquired connection is closed before the operation returns or
raises. -/
theorem storage_ops_release_connection (mode : DbMode) (data : SensorData)
    (s : String) (n : Nat) (sink : Sink) :
    ((insert_sensor_data mode data sink).events.count .acquire
      = (insert_sensor_data mode data sink).events.count .release)
    ∧ ((get_latest_readings mode s n sink).events.count .acquire
      = (get_latest_readings mode s n sink).events.count .release)
    ∧ ((get_all_sensors mode sink).events.count .acquire
      = (get_all_sensors mode sink).events.count .release) := by
  cases mode <;> exact ⟨rfl, rfl, rfl⟩

/-- C3. Per-message failure isolation of the MQTT listener. `on_message` is
a total function (its Lean type has no error channel, mirroring the
`except json.JSONDecodeError` / `except Exception` clauses that absorb
every per-message error), and for every failing message — malformed JSON,
missing/unparseable timestamp, validation failure, or a storage failure
during the insert — no stored reading is created, exactly one error line is
logged, and the listener state after handling the message equals the state
of never having received it, so subsequent messages are processed
unaffected. -/
theorem mqtt_failure_isolated (mode : DbMode) (msg : MqttPayload) (sink : Sink)
    (rest : List (DbMode × MqttPayload))
    (h : messageFails mode msg = true) :
    (on_message mode msg sink).1 = sink
    ∧ (on_message mode msg sink).2.length = 1
    ∧ runListener ((mode, msg) :: rest) sink = runListener rest sink := by
  have hmain : (on_message mode msg sink).1 = sink
      ∧ (on_message mode msg sink).2.length = 1 := by
    cases msg with
    | malformedJson => exact ⟨rfl, rfl⟩
    | json raw =>
        rcases hts : raw.timestamp with _ | ts
        · simp [on_message, hts]
        · rcases hv : validateSensorData raw with ve | data
          · simp [on_message, hts, hv]
          · cases mode with
            | ok => simp [messageFails, hts, hv] at h
            | connFail => simp [on_message, hts, hv, insert_sensor_data]
            | opError e => simp [on_message, hts, hv, insert_sensor_data]
  exact ⟨hmain.1, hmain.2, by simp [runListener, hmain.1]⟩

/-- Witness for C3: a malformed JSON message leaves the sink unchanged,
logs one line, and the run over `[malformed, valid]` equals the run over
`[valid]` alone. -/
theorem mqtt_failure_isolated_witness :
    (on_message .ok .malformedJson sink0).1 = sink0
    ∧ (on_message .ok .malformedJson sink0).2.length = 1
    ∧ runListener [(.ok, .malformedJson), (.ok, .json rawGood)] sink0
        = runListener [(.ok, .json rawGood)] sink0 :=
  mqtt_failure_isolated .ok .malformedJson sink0 [(.ok, .json rawGood)] rfl

/-- C10. Both ingestion channels converge on the same write path: the MQTT
handler and the REST endpoint call the same `validateSensorData` and the
same `insert_sensor_data`, so for any payload that validates to `data`,
each channel appends exactly `mkRow <its sink's nextId> data` — the four
reading fields of the stored row are identical across channels; only the
sink-assigned id differs. -/
theorem channels_converge_same_row (raw : RawPayload) (data : SensorData)
    (sink1 sink2 : Sink) (h : validateSensorData raw = .ok data) :
    (submit_sensor_data .ok raw sink1).sink.rows
      = sink1.rows ++ [mkRow sink1.nextId data]
    ∧ (on_message .ok (.json raw) sink2).1.rows
      = sink2.rows ++ [mkRow sink2.nextId data]
    ∧ (mkRow sink1.nextId data).sensor_id = (mkRow sink2.nextId data).sensor_id
    ∧ (mkRow sink1.nextId data).device_id = (mkRow sink2.nextId data).device_id
    ∧ (mkRow sink1.nextId data).timestamp = (mkRow sink2.nextId data).timestamp
    ∧ (mkRow sink1.nextId data).temp_value
        = (mkRow sink2.nextId data).temp_value := by
  have hts : raw.timestamp = some data.timestamp := by
    rcases raw with ⟨sid, did, ts, tv⟩
    unfold validateSensorData at h
    cases sid <;> cases did <;> cases ts <;> cases tv <;> simp_all
    exact congrArg SensorData.timestamp h
  refine ⟨?_, ?_, rfl, rfl, rfl, rfl⟩
  · simp [submit_sensor_data, h, insert_sensor_data]
  · simp [on_message, hts, h, insert_sensor_data]

/-- Witness for C10: the example payload stored through each channel from
the same empty sink yields the same appended row. -/
theorem channels_converge_same_row_witness :
    (submit_sensor_data .ok rawGood sink0).sink.rows
      = sink0.rows ++ [mkRow sink0.nextId dataGood]
    ∧ (on_message .ok (.json rawGood) sink0).1.rows
      = sink0.rows ++ [mkRow sink0.nextId dataGood]
    ∧ (mkRow sink0.nextId dataGood).sensor_id
        = (mkRow sink0.nextId dataGood).sensor_id
    ∧ (mkRow sink0.nextId dataGood).device_id
        = (mkRow sink0.nextId dataGood).device_id
    ∧ (mkRow sink0.nextId dataGood).timestamp
        = (mkRow sink0.nextId dataGood).timestamp
    ∧ (mkRow sink0.nextId dataGood).temp_value
        = (mkRow sink0.nextId dataGood).temp_value :=
  channels_converge_same_row rawGood dataGood sink0 sink0 rfl
